import Mathlib

/-!
Verification development for the P2P_Project line-oriented TCP echo service.

The repository has four translation units:
  * `src/server_async.cpp` — asynchronous echo server (Session state machine,
    accept loop, inactivity timer),
  * `src/server_sync.cpp`  — synchronous echo server,
  * `src/client_async.cpp` — asynchronous one-shot client,
  * `src/client_sync.cpp`  — synchronous one-shot client.

Byte strings are modelled as `List Char`.  Stateful code is modelled by
explicit state passing: every asynchronous completion handler of the C++
source becomes a Lean function from the session state (plus the data the
completion delivers) to the successor state together with the list of
asynchronous operations the handler submits.  The surrounding runtime
(Asio) is not part of the repository; only its documented contract is
used: a submitted operation is delivered later exactly once; an operation
that is still in progress when its socket is closed or its timer is
cancelled is delivered with an error code; but a completion that was
already queued as successful when the close or cancel ran is still
delivered with success afterwards.  The reachability relation below
includes these late success deliveries, and it also includes the
intermediate states of `async_read_until`, which commits arriving bytes
into the streambuf chunk by chunk while the read stays outstanding until
a delimiter appears.
-/

namespace EchoSvc

/-! ### Line processing (server_async.cpp lines 64-71, server_sync.cpp lines 76-83) -/

/-- Maximum accepted unconsumed buffer size, `MAX_LINE = 64 * 1024`
(server_async.cpp line 18). -/
def MAX_LINE : Nat := 64 * 1024

/-- Reply tag `"# echo> "` (server_async.cpp line 71, server_sync.cpp line 83). -/
def echoTag : List Char := "# echo> ".data

/-- Effect of `std::getline(is, line)` on a buffer: the characters before the
first `'\n'` (the delimiter itself is consumed and discarded; if the buffer
holds no delimiter, `getline` consumes everything). -/
def getlineStr (buf : List Char) : List Char :=
  buf.takeWhile (fun c => c ≠ '\n')

/-- Bytes left unconsumed in the buffer after `std::getline`: everything after
the first `'\n'`. -/
def restAfterNL (buf : List Char) : List Char :=
  (buf.dropWhile (fun c => c ≠ '\n')).tail

/-- Carriage-return stripping of the asynchronous server
(server_async.cpp line 68): `if (!line.empty() && line.back() == '\r') line.pop_back();`. -/
def stripCR (line : List Char) : List Char :=
  if line.getLast? = some '\r' then line.dropLast else line

/-- Outbound message of the asynchronous server for a given read-buffer
content (server_async.cpp lines 64-71): extract one line with `getline`,
strip an optional trailing `'\r'`, then build `"# echo> " + line + "\n"`. -/
def asyncReplyFor (buf : List Char) : List Char :=
  echoTag ++ stripCR (getlineStr buf) ++ ['\n']

/-- Outbound message of the synchronous server for a given read-buffer
content (server_sync.cpp lines 76-83): extract one line with `getline`, then
build `"# echo> " + line + "\n"`.  Note: the synchronous server performs no
carriage-return stripping. -/
def syncReplyFor (buf : List Char) : List Char :=
  echoTag ++ getlineStr buf ++ ['\n']

/-! ### Client outbound messages (client_async.cpp lines 26-30, client_sync.cpp line 42) -/

/-- Outbound bytes of the asynchronous client for the line read from stdin
(client_async.cpp lines 27-30):
`if (!line.empty() && line.back() != '\n') line.push_back('\n'); out_ = line;`. -/
def clientAsyncOut (line : List Char) : List Char :=
  if line ≠ [] ∧ line.getLast? ≠ some '\n' then line ++ ['\n'] else line

/-- Outbound bytes of the synchronous client for the line read from stdin
(client_sync.cpp line 42): `line.push_back('\n');` unconditionally. -/
def clientSyncOut (line : List Char) : List Char :=
  line ++ ['\n']

/-! ### Generic list lemmas used to evaluate the line functions -/

/-- `getline` on `L ++ "\n"` yields exactly `L` when `L` has no delimiter. -/
theorem getlineStr_append_nl (L : List Char) (h : '\n' ∉ L) :
    getlineStr (L ++ ['\n']) = L := by
  induction L with
  | nil => simp [getlineStr]
  | cons c cs ih =>
    have hc : c ≠ '\n' := fun he => h (he ▸ List.mem_cons_self c cs)
    have hcs : '\n' ∉ cs := fun hm => h (List.mem_cons_of_mem c hm)
    simpa [getlineStr, List.takeWhile_cons, hc] using ih hcs

/-- After consuming `L ++ "\n"` with `getline`, nothing is left when `L` has
no delimiter. -/
theorem restAfterNL_append_nl (L : List Char) (h : '\n' ∉ L) :
    restAfterNL (L ++ ['\n']) = [] := by
  induction L with
  | nil => simp [restAfterNL]
  | cons c cs ih =>
    have hc : c ≠ '\n' := fun he => h (he ▸ List.mem_cons_self c cs)
    have hcs : '\n' ∉ cs := fun hm => h (List.mem_cons_of_mem c hm)
    simpa [restAfterNL, List.dropWhile_cons, hc] using ih hcs

/-- Stripping is the identity on lines that do not end in a carriage return. -/
theorem stripCR_eq_self (L : List Char) (h : L.getLast? ≠ some '\r') :
    stripCR L = L := by
  simp [stripCR, h]

/-! ### The Session state machine (server_async.cpp lines 24-128)

One `Session` owns one accepted connection plus one inactivity timer.  The
C++ object state is the socket, the read buffer (`buffer_`), the outbound
string (`out_`) and the timer; the Lean state adds the two booleans
`readPending` / `writePending` recording which asynchronous transport
operation is currently outstanding, and `timerArmed` recording that an armed
timer wait is outstanding and has been neither cancelled nor delivered.
Each handler returns the successor state together with the list of
asynchronous operations it submits. -/

/-- Asynchronous operations a session can submit. -/
inductive Op where
  | opRead      : Op
  | opWrite     : Op
  | opTimerWait : Op
deriving DecidableEq

/-- State of one `Session`. -/
structure SessionSt where
  socketOpen   : Bool
  timerArmed   : Bool
  readPending  : Bool
  writePending : Bool
  buffer       : List Char
  out          : List Char
deriving DecidableEq

/-- `Session::cancel_timeout` (lines 111-113): `timer_.cancel();`. -/
def cancel_timeout (s : SessionSt) : SessionSt :=
  { s with timerArmed := false }

/-- `Session::close` (lines 116-121): cancel the timer, shut down both
directions, close the socket. -/
def close (s : SessionSt) : SessionSt :=
  { (cancel_timeout s) with socketOpen := false }

/-- `Session::arm_timeout` (lines 99-108): set the deadline and submit an
asynchronous timer wait. -/
def arm_timeout (s : SessionSt) : SessionSt × List Op :=
  ({ s with timerArmed := true }, [Op.opTimerWait])

/-- `Session::do_read_line` entry (lines 44-54): the anti-flood guard closes
the session when the unconsumed buffer exceeds `MAX_LINE`; otherwise an
asynchronous read-until-newline is submitted. -/
def do_read_line (s : SessionSt) : SessionSt × List Op :=
  if MAX_LINE < s.buffer.length then (close s, [])
  else ({ s with readPending := true }, [Op.opRead])

/-- `Session::do_write` (lines 80-84): submit an asynchronous write of the
full outbound buffer. -/
def do_write (s : SessionSt) : SessionSt × List Op :=
  ({ s with writePending := true }, [Op.opWrite])

/-- The read-completion handler (lines 55-75).  `ec` is true on error;
`newBuf` is the buffer content at completion (on success, `read_until`
delivers bytes until the buffer holds a delimiter).  The handler cancels the
timer; on error it closes; on success it extracts one line with `getline`,
strips an optional trailing `'\r'`, builds the reply and submits the write. -/
def on_read (ec : Bool) (newBuf : List Char) (s : SessionSt) : SessionSt × List Op :=
  let s1 := cancel_timeout { s with readPending := false, buffer := newBuf }
  if ec then (close s1, [])
  else
    let line := stripCR (getlineStr s1.buffer)
    do_write { s1 with
                 buffer := restAfterNL s1.buffer,
                 out := echoTag ++ line ++ ['\n'] }

/-- The write-completion handler (lines 85-94).  On error it closes; on
success it re-arms the inactivity timer and calls `do_read_line` again. -/
def on_write (ec : Bool) (s : SessionSt) : SessionSt × List Op :=
  let s1 := { s with writePending := false }
  if ec then (close s1, [])
  else
    let (s2, o2) := arm_timeout s1
    let (s3, o3) := do_read_line s2
    (s3, o2 ++ o3)

/-- The timer-completion handler (lines 104-107): a delivery with an error
code (the wait was cancelled) does nothing; a successful delivery (the timer
expired) closes the session. -/
def on_timer (ec : Bool) (s : SessionSt) : SessionSt × List Op :=
  if ec then (s, []) else (close s, [])

/-- `Session::start` (lines 33-40): issue the first read, then arm the
inactivity timer. -/
def start (s : SessionSt) : SessionSt × List Op :=
  let (s1, o1) := do_read_line s
  let (s2, o2) := arm_timeout s1
  (s2, o1 ++ o2)

/-- A freshly constructed session (lines 27-30): open socket, no outstanding
operation, empty buffers. -/
def sInit : SessionSt :=
  { socketOpen := true, timerArmed := false, readPending := false,
    writePending := false, buffer := [], out := [] }

/-- Session states reachable from a fresh accepted connection, closed under
delivery of completions.
`readData` is the progress of an outstanding `async_read_until` before any
delimiter has arrived: the transport commits each arriving chunk into the
streambuf (unbounded — the streambuf's default maximum is practically
unlimited and the `MAX_LINE` guard runs only at read issue) while the read
stays outstanding.  A successful read delivery (`readOk`) happens once a
chunk makes the buffer hold a delimiter.  Successful read and write
deliveries do not require an open socket: a completion that was already
queued as successful when `close` ran is still delivered with success
afterwards (the documented runtime behaviour); deliveries with an error
code are always possible while the operation is outstanding.  A timer
delivery with success occurs either for an armed wait that expires
(`timerFire`) or, since cancelling does not affect a completion that
already expired and was queued, after a cancellation that came too late
(`timerLateFire`; the model does not track deadlines, so it admits this
delivery whenever the timer is not armed — a superset of the real
traces). -/
inductive Reachable : SessionSt → Prop where
  | start0 : Reachable (start sInit).1
  | readData {s : SessionSt} (d : List Char) : Reachable s →
      s.readPending = true → s.socketOpen = true → '\n' ∉ s.buffer ++ d →
      Reachable { s with buffer := s.buffer ++ d }
  | readOk {s : SessionSt} (d : List Char) : Reachable s →
      s.readPending = true → '\n' ∈ s.buffer ++ d →
      Reachable (on_read false (s.buffer ++ d) s).1
  | readErr {s : SessionSt} (d : List Char) : Reachable s →
      s.readPending = true → Reachable (on_read true (s.buffer ++ d) s).1
  | writeOk {s : SessionSt} : Reachable s →
      s.writePending = true → Reachable (on_write false s).1
  | writeErr {s : SessionSt} : Reachable s →
      s.writePending = true → Reachable (on_write true s).1
  | timerFire {s : SessionSt} : Reachable s →
      s.timerArmed = true → Reachable (on_timer false s).1
  | timerLateFire {s : SessionSt} : Reachable s →
      s.timerArmed = false → Reachable (on_timer false s).1
  | timerAborted {s : SessionSt} : Reachable s →
      Reachable (on_timer true s).1

/-- Fate of one armed timer wait, deciding the error code of its delivery
under the documented contract of the runtime's cancellable one-shot timer:
a wait cancelled before its expiry is delivered with `operation_aborted`
(error); a wait that expired is delivered with success — including
`expiredThenCancelled`, the interleaving in which the wait expired and its
completion was queued before a `cancel` ran: the cancel affects nothing
already queued, and the completion is still delivered with success
afterwards. -/
inductive TimerFate where
  | expired              : TimerFate
  | expiredThenCancelled : TimerFate
  | cancelledFirst       : TimerFate
deriving DecidableEq

/-- Error code with which the timer completion is delivered, as a function
of the fate of the wait. -/
def timerDeliveryEc : TimerFate → Bool
  | TimerFate.expired => false
  | TimerFate.expiredThenCancelled => false
  | TimerFate.cancelledFirst => true

/-! ### The accept loop (server_async.cpp lines 146-166)

The recursive lambda `do_accept` submits one `async_accept`; its completion
handler, on success, logs the remote endpoint and creates and starts a
Session, and in every case ends by calling `do_accept` again. -/

/-- Actions the accept-completion handler performs, in order. -/
inductive ListenerAct where
  | startSession : ListenerAct
  | acceptOp     : ListenerAct
deriving DecidableEq

/-- Console log events of the accept-completion handler. -/
inductive LogEv where
  | clientConnected : LogEv
deriving DecidableEq

/-- The accept-completion handler (lines 151-162).  `k` counts the sessions
created so far (ghost).  On success (`ec = false`) it logs the client and
starts a session; in both branches it re-issues the next accept.  Note that
the error branch performs no logging. -/
def accept_handler (ec : Bool) (k : Nat) : Nat × List ListenerAct × List LogEv :=
  if ec then (k, [ListenerAct.acceptOp], [])
  else (k + 1, [ListenerAct.startSession, ListenerAct.acceptOp], [LogEv.clientConnected])

/-- The accept loop run over a finite schedule of accept-completion error
codes: each completion is handled and the loop continues with the next. -/
def acceptLoop : List Bool → Nat → Nat
  | [], k => k
  | ec :: rest, k => acceptLoop rest (accept_handler ec k).1

/-! ### Client exit codes (client_sync.cpp lines 15-77, client_async.cpp lines 124-154) -/

/-- Execution scenario of `client_sync.cpp`'s `main`, in program order:
resolution/connection may throw (lines 25-33, caught at line 72), then one
line is read from stdin (`none` = no input, lines 38-41), then the blocking
write may fail (lines 45-50), then the blocking read may fail (lines 53-59). -/
structure SyncScenario where
  connectThrows : Bool
  stdinLine     : Option (List Char)
  writeEc       : Bool
  readEc        : Bool

/-- Exit code of `client_sync.cpp`'s `main`: 1 from the catch-all handler
(line 74), 2 when stdin has no input (line 40), 3 on write error (line 49),
4 on read error (line 58), 0 otherwise (line 76). -/
def client_sync_exit (sc : SyncScenario) : Nat :=
  if sc.connectThrows then 1
  else
    match sc.stdinLine with
    | none => 2
    | some _ => if sc.writeEc then 3 else if sc.readEc then 4 else 0

/-- Execution scenario of `client_async.cpp`'s `main`: stdin is read first
(lines 131-135), then the event loop runs; `runThrows` covers an exception
reaching the catch-all handler.  The error codes of the asynchronous
resolve/connect/write/read steps are recorded but — as in the source, whose
completion handlers only print to stderr and close the socket (lines 38-44,
52-56, 70-74, 85-89) — they do not influence the exit code. -/
structure AsyncScenario where
  stdinLine : Option (List Char)
  runThrows : Bool
  resolveEc : Bool
  connectEc : Bool
  writeEc   : Bool
  readEc    : Bool

/-- Exit code of `client_async.cpp`'s `main`: 2 when stdin has no input
(line 134), 1 from the catch-all handler (line 150), 0 otherwise (line 153). -/
def client_async_exit (sc : AsyncScenario) : Nat :=
  match sc.stdinLine with
  | none => 2
  | some _ => if sc.runThrows then 1 else 0

/-! ### Stream-level session run

`sessionRun` drives the session over the whole byte stream one connection
delivers, split into the chunks in which the transport hands the bytes to
`async_read_until`.  It follows the code's error-free read/write cycle:
guard check at `do_read_line` entry, read completion once the buffer holds a
delimiter (end of stream without a delimiter is a read error, which closes
the session), line extraction and reply construction as in `on_read`, write
completion, and the next cycle.  It returns the replies written, in order. -/

/-- Total number of bytes in a chunk list. -/
def chunksLen : List (List Char) → Nat
  | [] => 0
  | c :: cs => c.length + chunksLen cs

/-- Completion condition of `async_read_until(socket_, buffer_, '\n', …)`:
append incoming chunks to the buffer until it holds a `'\n'`; if the stream
ends first, the read completes with an error (`none`). -/
def fillUntilNL (buf : List Char) : List (List Char) → Option (List Char × List (List Char))
  | [] => if '\n' ∈ buf then some (buf, []) else none
  | c :: cs => if '\n' ∈ buf then some (buf, c :: cs) else fillUntilNL (buf ++ c) cs

/-- A successful fill leaves a delimiter in the buffer. -/
theorem fillUntilNL_mem {buf b : List Char} {chunks cs : List (List Char)}
    (h : fillUntilNL buf chunks = some (b, cs)) : '\n' ∈ b := by
  induction chunks generalizing buf with
  | nil =>
    by_cases hm : '\n' ∈ buf
    · simp [fillUntilNL, hm] at h
      exact h.1 ▸ hm
    · simp [fillUntilNL, hm] at h
  | cons c rest ih =>
    by_cases hm : '\n' ∈ buf
    · simp [fillUntilNL, hm] at h
      exact h.1 ▸ hm
    · rw [fillUntilNL, if_neg hm] at h
      exact ih h

/-- A fill moves bytes from the chunk list into the buffer: the total byte
count is preserved. -/
theorem fillUntilNL_len {buf b : List Char} {chunks cs : List (List Char)}
    (h : fillUntilNL buf chunks = some (b, cs)) :
    b.length + chunksLen cs = buf.length + chunksLen chunks := by
  induction chunks generalizing buf with
  | nil =>
    by_cases hm : '\n' ∈ buf
    · simp [fillUntilNL, hm] at h
      rw [h.1, h.2]
    · simp [fillUntilNL, hm] at h
  | cons c rest ih =>
    by_cases hm : '\n' ∈ buf
    · simp [fillUntilNL, hm] at h
      rw [h.1, h.2]
    · rw [fillUntilNL, if_neg hm] at h
      have := ih h
      simp [chunksLen, List.length_append] at this ⊢
      omega

/-- When neither the buffer nor any chunk holds a delimiter, the fill never
completes successfully: the read ends in an error at end of stream. -/
theorem fillUntilNL_none {buf : List Char} {chunks : List (List Char)}
    (hb : '\n' ∉ buf) (hc : ∀ c ∈ chunks, '\n' ∉ c) :
    fillUntilNL buf chunks = none := by
  induction chunks generalizing buf with
  | nil => simp [fillUntilNL, hb]
  | cons c rest ih =>
    have hbc : '\n' ∉ buf ++ c := by
      intro hm
      rcases List.mem_append.1 hm with h | h
      · exact hb h
      · exact hc c (List.mem_cons_self c rest) h
    rw [fillUntilNL, if_neg hb]
    exact ih hbc (fun d hd => hc d (List.mem_cons_of_mem c hd))

/-- Dropping a prefix never lengthens a list. -/
theorem length_dropWhile_le_self (p : Char → Bool) (l : List Char) :
    (l.dropWhile p).length ≤ l.length := by
  induction l with
  | nil => simp
  | cons c cs ih =>
    by_cases hp : p c
    · simp only [List.dropWhile_cons, hp, if_true]
      exact Nat.le_trans ih (Nat.le_succ _)
    · simp [List.dropWhile_cons, hp]

/-- `getline` consumes at least the delimiter: the unconsumed rest is
strictly shorter than a buffer that holds a delimiter. -/
theorem restAfterNL_length_lt {b : List Char} (h : '\n' ∈ b) :
    (restAfterNL b).length < b.length := by
  have hne : b.dropWhile (fun c => c ≠ '\n') ≠ [] := by
    intro he
    have := (List.dropWhile_eq_nil_iff).1 he '\n' h
    simp at this
  have hd : (b.dropWhile (fun c => c ≠ '\n')).length ≤ b.length :=
    length_dropWhile_le_self _ b
  have hpos : 0 < (b.dropWhile (fun c => c ≠ '\n')).length :=
    List.length_pos.2 hne
  have : (restAfterNL b).length = (b.dropWhile (fun c => c ≠ '\n')).length - 1 := by
    simp [restAfterNL, List.length_tail]
  omega

/-- The deterministic run of one session over one connection's chunk
stream, returning the replies written back, in order.  Mirrors the
error-free cycle of `Session::do_read_line` / `Session::do_write`. -/
def sessionRun (buf : List Char) (chunks : List (List Char)) : List (List Char) :=
  if MAX_LINE < buf.length then []
  else
    match h : fillUntilNL buf chunks with
    | none => []
    | some (b, cs) =>
      asyncReplyFor b :: sessionRun (restAfterNL b) cs
termination_by buf.length + chunksLen chunks
decreasing_by
  have h1 := fillUntilNL_len h
  have h2 := restAfterNL_length_lt (fillUntilNL_mem h)
  omega

/-! ### Invariants of the reachable session states -/

/-- Combined inductive invariant of the Session state machine: at most one
transport operation is outstanding at a time; while the socket is open, an
outstanding read implies an armed timer; an outstanding write implies a
cancelled timer.  Note that no bound on the unconsumed buffer holds while
a read is outstanding: `readData` grows it without limit. -/
def SessInv (s : SessionSt) : Prop :=
  ¬(s.readPending = true ∧ s.writePending = true) ∧
  (s.socketOpen = true → s.readPending = true → s.timerArmed = true) ∧
  (s.writePending = true → s.timerArmed = false)

/-- Every reachable session state satisfies the combined invariant. -/
theorem reachable_inv {s : SessionSt} (h : Reachable s) : SessInv s := by
  induction h with
  | start0 => unfold SessInv; decide
  | @readData s d hr hrp hso hnl ih =>
    exact ih
  | @readOk s d hr hrp hmem ih =>
    simp [SessInv, on_read, do_write, cancel_timeout]
  | @readErr s d hr hrp ih =>
    simp [SessInv, on_read, close, cancel_timeout]
  | @writeOk s hr hwp ih =>
    by_cases hg : MAX_LINE < s.buffer.length
    · simp [SessInv, on_write, arm_timeout, do_read_line, close, cancel_timeout, hg]
    · simp [SessInv, on_write, arm_timeout, do_read_line, close, cancel_timeout, hg]
  | @writeErr s hr hwp ih =>
    simp [SessInv, on_write, close, cancel_timeout]
  | @timerFire s hr ht ih =>
    obtain ⟨ih1, ih2, ih3⟩ := ih
    refine ⟨?_, ?_, ?_⟩
    · simpa [on_timer, close, cancel_timeout] using ih1
    · simp [on_timer, close, cancel_timeout]
    · simp [on_timer, close, cancel_timeout]
  | @timerLateFire s hr ht ih =>
    obtain ⟨ih1, ih2, ih3⟩ := ih
    refine ⟨?_, ?_, ?_⟩
    · simpa [on_timer, close, cancel_timeout] using ih1
    · simp [on_timer, close, cancel_timeout]
    · simp [on_timer, close, cancel_timeout]
  | @timerAborted s hr ih =>
    simpa [on_timer] using ih

/-! ### Evaluation lemmas for the stream-level run -/

/-- A buffer that already holds a delimiter completes the read at once. -/
theorem fillUntilNL_of_mem {buf : List Char} (chunks : List (List Char))
    (h : '\n' ∈ buf) : fillUntilNL buf chunks = some (buf, chunks) := by
  cases chunks <;> simp [fillUntilNL, h]

/-- An empty connection produces no reply. -/
theorem sessionRun_nil : sessionRun [] [] = [] := by
  rw [sessionRun]
  simp [fillUntilNL, MAX_LINE]

/-- One complete line delivered in its own chunk produces exactly one reply
(the carriage-return-stripped tagged echo) and leaves the session ready for
the rest of the stream with an empty buffer. -/
theorem sessionRun_cons_line (L : List Char) (cs : List (List Char)) (h : '\n' ∉ L) :
    sessionRun [] ((L ++ ['\n']) :: cs) =
      (echoTag ++ stripCR L ++ ['\n']) :: sessionRun [] cs := by
  have hm : '\n' ∈ L ++ ['\n'] := by simp
  have hf : fillUntilNL [] ((L ++ ['\n']) :: cs) = some (L ++ ['\n'], cs) := by
    rw [fillUntilNL, if_neg (by simp)]
    simpa using fillUntilNL_of_mem cs hm
  rw [sessionRun, if_neg (by simp)]
  split
  · next heq => rw [hf] at heq; cases heq
  · next b cs' heq =>
    rw [hf] at heq
    obtain ⟨rfl, rfl⟩ : L ++ ['\n'] = b ∧ cs = cs' := by
      simpa using heq
    rw [restAfterNL_append_nl L h]
    simp [asyncReplyFor, getlineStr_append_nl L h]

/-- A connection whose bytes contain no delimiter never receives a reply:
either the oversized-buffer guard closes the session at a read-issue point,
or the read ends in an end-of-stream error and the session closes. -/
theorem sessionRun_no_nl (buf : List Char) (chunks : List (List Char))
    (hb : '\n' ∉ buf) (hc : ∀ c ∈ chunks, '\n' ∉ c) :
    sessionRun buf chunks = [] := by
  rw [sessionRun]
  by_cases hg : MAX_LINE < buf.length
  · simp [hg]
  · rw [if_neg hg]
    split
    · rfl
    · next b cs heq => rw [fillUntilNL_none hb hc] at heq; cases heq

/-- Line-per-chunk schedules produce the tagged echoes, in order. -/
theorem sessionRun_lines (lines : List (List Char)) (h : ∀ l ∈ lines, '\n' ∉ l) :
    sessionRun [] (lines.map (fun l => l ++ ['\n'])) =
      lines.map (fun l => echoTag ++ stripCR l ++ ['\n']) := by
  induction lines with
  | nil => simpa using sessionRun_nil
  | cons l ls ih =>
    have hl : '\n' ∉ l := h l (List.mem_cons_self l ls)
    have hls : ∀ x ∈ ls, '\n' ∉ x := fun x hx => h x (List.mem_cons_of_mem l hx)
    simp only [List.map_cons]
    rw [sessionRun_cons_line l _ hl, ih hls]

/-! ### A concrete overflowing exchange

The chunk below carries one complete line (`"a\n"`) followed by 65537 bytes
with no delimiter.  `async_read_until` completes once the delimiter is in
the buffer, with every byte already delivered by the transport; the session
then echoes the first line while 65537 bytes sit unconsumed in the buffer —
more than `MAX_LINE` — and the guard only closes the session at the next
read-issue point. -/
def overflowChunk : List Char := 'a' :: '\n' :: List.replicate 65537 'b'

/-- The session state right after the read completion that delivered
`overflowChunk`: the reply to `"a"` has been submitted as a write while
65537 unconsumed bytes remain buffered. -/
def sOverflow : SessionSt :=
  (on_read false ((start sInit).1.buffer ++ overflowChunk) (start sInit).1).1

/-- `sOverflow` is reachable: it arises from a fresh session after `start`
and one successful read completion. -/
theorem sOverflow_reachable : Reachable sOverflow :=
  Reachable.readOk overflowChunk Reachable.start0 rfl
    (List.mem_cons_of_mem 'a' (List.mem_cons_self '\n' (List.replicate 65537 'b')))

/-- Field values of `sOverflow`: socket open, write outstanding, and 65537
unconsumed bytes in the read buffer. -/
theorem sOverflow_fields :
    sOverflow.socketOpen = true ∧ sOverflow.writePending = true ∧
      sOverflow.buffer = List.replicate 65537 'b' :=
  ⟨rfl, rfl, rfl⟩

/-- A successful write completion on a session whose unconsumed buffer
exceeds `MAX_LINE` arms the timer and then closes at the `do_read_line`
guard: no read operation is submitted. -/
theorem on_write_guard (s : SessionSt) (hg : MAX_LINE < s.buffer.length) :
    on_write false s =
      (close { s with writePending := false, timerArmed := true },
        [Op.opTimerWait]) := by
  simp [on_write, arm_timeout, do_read_line, hg]

/-! ### A mid-read flood, and a completion queued across a close

`sReadFlood` is the session one `readData` step after `start`: the
connection has pushed 65537 delimiter-free bytes, all committed into the
streambuf by the outstanding `async_read_until`, which has not completed
(no delimiter) — the buffer exceeds `MAX_LINE` while the read is
outstanding and the session fully live.

`sAfterLine` is the session right after the read completion for the line
`"hi\n"` ran: the timer was cancelled by `cancel_timeout` and the reply
write was submitted.  If the inactivity timer had expired just before that
read completion was processed, its success completion is already queued:
delivered now (after the cancellation), it closes this live session.
`sQueuedWrite` is the resulting closed state, on which the write's own
queued success completion is then delivered. -/

/-- Reachable mid-read state holding 65537 delimiter-free unconsumed
bytes. -/
def sReadFlood : SessionSt :=
  { (start sInit).1 with buffer := (start sInit).1.buffer ++ List.replicate 65537 'b' }

/-- The flood state is reachable: `start`, then one data chunk committed by
the outstanding read. -/
theorem sReadFlood_reachable : Reachable sReadFlood :=
  Reachable.readData (List.replicate 65537 'b') Reachable.start0 rfl rfl
    (by
      rw [show (start sInit).1.buffer = [] from rfl, List.nil_append]
      intro hm
      have hb := List.eq_of_mem_replicate hm
      simp at hb)

/-- The flood buffer is longer than `MAX_LINE`. -/
theorem sReadFlood_len : MAX_LINE < sReadFlood.buffer.length := by
  rw [show sReadFlood.buffer = List.replicate 65537 'b' from rfl,
    List.length_replicate]
  decide

/-- The session right after the read handler processed the line `"hi"`:
timer cancelled, reply write outstanding, socket open. -/
def sAfterLine : SessionSt :=
  (on_read false ((start sInit).1.buffer ++ ['h', 'i', '\n']) (start sInit).1).1

/-- `sAfterLine` is reachable via one successful read delivery. -/
theorem sAfterLine_reachable : Reachable sAfterLine :=
  Reachable.readOk ['h', 'i', '\n'] Reachable.start0 rfl (by decide)

/-- The closed session produced when the queued expired-timer completion is
delivered to `sAfterLine` after the cancellation: the write is still in
flight (its own success completion already queued). -/
def sQueuedWrite : SessionSt := (on_timer false sAfterLine).1

/-- `sQueuedWrite` is reachable via the late success delivery of the
expired-then-cancelled timer wait. -/
theorem sQueuedWrite_reachable : Reachable sQueuedWrite :=
  Reachable.timerLateFire sAfterLine_reachable rfl

/-! ### Claims -/

/-- C1, counterexample: the claim states that for every line `L` without a
delimiter the reply is exactly `"# echo> " + L + "\n"`; for `L = "a\r"` the
asynchronous server strips the trailing carriage return (server_async.cpp
line 68) and replies `"# echo> a\n"` instead of `"# echo> a\r\n"`. -/
theorem c1_counterexample :
    ('\n' ∉ (['a', '\r'] : List Char)) ∧
      asyncReplyFor (['a', '\r'] ++ ['\n']) ≠ echoTag ++ ['a', '\r'] ++ ['\n'] := by
  decide

/-- C1, amended: for every line `L` not containing the delimiter, the
synchronous server replies exactly `"# echo> " + L + "\n"`, and the
asynchronous server replies the same whenever `L` does not end in a
carriage return (a trailing `'\r'` is stripped from its echo). -/
theorem c1_theorem (L : List Char) (h : '\n' ∉ L) :
    syncReplyFor (L ++ ['\n']) = echoTag ++ L ++ ['\n'] ∧
      (L.getLast? ≠ some '\r' → asyncReplyFor (L ++ ['\n']) = echoTag ++ L ++ ['\n']) := by
  constructor
  · simp [syncReplyFor, getlineStr_append_nl L h]
  · intro hr
    simp [asyncReplyFor, getlineStr_append_nl L h, stripCR_eq_self L hr]

/-- C1, witness at the concrete line `"hello"`. -/
theorem c1_witness :
    ('\n' ∉ "hello".data) ∧
      (syncReplyFor ("hello".data ++ ['\n']) = echoTag ++ "hello".data ++ ['\n'] ∧
        ("hello".data.getLast? ≠ some '\r' →
          asyncReplyFor ("hello".data ++ ['\n']) = echoTag ++ "hello".data ++ ['\n'])) :=
  ⟨by decide, c1_theorem "hello".data (by decide)⟩

/-- C2, counterexample: the claim states the unconsumed read-buffer length
never exceeds 65536 bytes; yet `sReadFlood` is reachable — a fully live
session (socket open) with the read still outstanding whose streambuf
holds 65537 delimiter-free bytes, because `async_read_until` commits
arriving data without bound and the `MAX_LINE` guard runs only at
read-issue points. -/
theorem c2_counterexample :
    Reachable sReadFlood ∧ sReadFlood.readPending = true ∧
      sReadFlood.socketOpen = true ∧ MAX_LINE < sReadFlood.buffer.length :=
  ⟨sReadFlood_reachable, rfl, rfl, sReadFlood_len⟩

/-- C2, amended: the unconsumed length is bounded only at read-issue
points — the buffer may exceed 65536 bytes without bound while a read is
outstanding and at its completion.  What the code guarantees: a read is
never issued on a buffer exceeding 65536 bytes — at a read-issue point
(the `do_read_line` entry, reached after every completed write) such a
session is closed instead, submitting no read and no further reply — and a
connection whose bytes contain no delimiter never receives any reply. -/
theorem c2_theorem :
    (∀ s : SessionSt, MAX_LINE < s.buffer.length →
        do_read_line s = (close s, []) ∧
        on_write false s =
          (close { s with writePending := false, timerArmed := true },
            [Op.opTimerWait])) ∧
      (∀ (buf : List Char) (chunks : List (List Char)), '\n' ∉ buf →
        (∀ c ∈ chunks, '\n' ∉ c) → sessionRun buf chunks = []) := by
  refine ⟨fun s hg => ⟨?_, on_write_guard s hg⟩,
    fun buf chunks hb hc => sessionRun_no_nl buf chunks hb hc⟩
  simp [do_read_line, hg]

/-- C2, witness: at the concrete oversized state `sReadFlood` the read
issue closes instead of reading, and a delimiter-free connection gets no
reply. -/
theorem c2_witness :
    (MAX_LINE < sReadFlood.buffer.length) ∧
      do_read_line sReadFlood = (close sReadFlood, []) ∧
      ('\n' ∉ ([] : List Char)) ∧ (∀ c ∈ [['a', 'b']], '\n' ∉ c) ∧
      sessionRun [] [['a', 'b']] = [] :=
  ⟨sReadFlood_len, (c2_theorem.1 sReadFlood sReadFlood_len).1, by decide, by decide,
    c2_theorem.2 [] [['a', 'b']] (by decide) (by decide)⟩

/-- C3, counterexample: the claim states that after every successful write
the session issues a new read; from the reachable state `sOverflow` (65537
unconsumed bytes) the successful write completion arms the timer but then
the `do_read_line` guard closes the session — no read is submitted. -/
theorem c3_counterexample :
    sOverflow.writePending = true ∧ sOverflow.socketOpen = true ∧
      Op.opRead ∉ (on_write false sOverflow).2 ∧
      (on_write false sOverflow).1.socketOpen = false := by
  have hg : MAX_LINE < sOverflow.buffer.length := by
    rw [sOverflow_fields.2.2, List.length_replicate]
    decide
  have h2 := on_write_guard sOverflow hg
  refine ⟨sOverflow_fields.2.1, sOverflow_fields.1, ?_, ?_⟩
  · rw [h2]; decide
  · rw [h2]; rfl

/-- C3, amended: after a write completes successfully, the session re-arms
the inactivity timer and — provided the unconsumed buffer does not exceed
the 65536-byte maximum, otherwise it closes — issues a new read; and a
connection sending K sequential lines receives the K tagged echoes in the
same order. -/
theorem c3_theorem :
    (∀ s : SessionSt, s.buffer.length ≤ MAX_LINE →
        (on_write false s).1.timerArmed = true ∧
        (on_write false s).1.readPending = true ∧
        (on_write false s).2 = [Op.opTimerWait, Op.opRead]) ∧
      (∀ lines : List (List Char), (∀ l ∈ lines, '\n' ∉ l) →
        sessionRun [] (lines.map (fun l => l ++ ['\n'])) =
          lines.map (fun l => echoTag ++ stripCR l ++ ['\n'])) := by
  constructor
  · intro s hle
    have hg : ¬ MAX_LINE < s.buffer.length := by omega
    simp [on_write, arm_timeout, do_read_line, hg]
  · exact sessionRun_lines

/-- C3, witness: a fresh session's write completion re-arms and re-reads,
and the three-line connection gets its three echoes in order. -/
theorem c3_witness :
    (sInit.buffer.length ≤ MAX_LINE) ∧
      ((on_write false sInit).2 = [Op.opTimerWait, Op.opRead]) ∧
      (∀ l ∈ ["one".data, "two".data, "three".data], '\n' ∉ l) ∧
      sessionRun [] (["one".data, "two".data, "three".data].map (fun l => l ++ ['\n'])) =
        ["one".data, "two".data, "three".data].map
          (fun l => echoTag ++ stripCR l ++ ['\n']) :=
  ⟨by decide, (c3_theorem.1 sInit (by decide)).2.2, by decide,
    c3_theorem.2 ["one".data, "two".data, "three".data] (by decide)⟩

/-- C4, counterexample: the claim states that once a session enters Closed
no further transport or timer operation is ever submitted; yet
`sQueuedWrite` — closed by the queued expired-timer completion while the
reply write's success completion was already queued — is reachable, and
delivering that write success runs lines 92-93 on the closed session,
submitting a timer arm and a read. -/
theorem c4_counterexample :
    Reachable sQueuedWrite ∧ sQueuedWrite.socketOpen = false ∧
      sQueuedWrite.writePending = true ∧
      (on_write false sQueuedWrite).2 = [Op.opTimerWait, Op.opRead] :=
  ⟨sQueuedWrite_reachable, rfl, rfl, rfl⟩

/-- C4, amended: `close` is idempotent (a second teardown changes nothing,
so any number of racing close triggers produce at most one effective
teardown and no double-close); completions delivered with an error code —
the delivery the runtime produces for operations it cancelled at close
time — submit no operation; and under every such delivery a closed socket
stays closed with the timer cancelled.  (A read or write completion
already queued as successful when `close` ran is still delivered and its
handler submits further operations on the closed transport — the
counterexample above.) -/
theorem c4_theorem :
    (∀ s : SessionSt, close (close s) = close s ∧ (close s).socketOpen = false ∧
        (close s).timerArmed = false) ∧
      (∀ (s : SessionSt) (d : List Char),
        (on_read true d s).2 = [] ∧ (on_write true s).2 = [] ∧
        (on_timer true s).2 = [] ∧ (on_timer false s).2 = []) ∧
      (∀ (s : SessionSt) (d : List Char), s.socketOpen = false →
        (on_read true d s).1.socketOpen = false ∧
        (on_read true d s).1.timerArmed = false ∧
        (on_write true s).1.socketOpen = false ∧
        (on_write true s).1.timerArmed = false ∧
        (on_timer true s).1 = s ∧
        (on_timer false s).1.socketOpen = false ∧
        (on_timer false s).1.timerArmed = false) := by
  refine ⟨fun s => ⟨rfl, rfl, rfl⟩, fun s d => ?_, fun s d hs => ?_⟩
  · exact ⟨rfl, rfl, rfl, rfl⟩
  · exact ⟨rfl, rfl, rfl, rfl, rfl, rfl, rfl⟩

/-- C4, witness: a closed fresh session stays closed and unchanged under a
late timer delivery. -/
theorem c4_witness :
    ((close sInit).socketOpen = false) ∧ (on_timer true (close sInit)).1 = close sInit :=
  ⟨rfl, (c4_theorem.2.2 (close sInit) [] rfl).2.2.2.2.1⟩

/-- C5, code bug at the expire-then-cancel-then-deliver interleaving: the
claim (and the design document) require a timer firing delivered after the
cancellation to be a no-op for every interleaving of cancel and fire; but
when the wait expired and its success completion was queued before
`cancel_timeout` ran, the cancel affects nothing and the completion is
still delivered with success — and the handler at server_async.cpp lines
104-107 checks only the delivered error code, so it closes the live
session `sAfterLine` that had just received a line. -/
theorem c5_theorem :
    sAfterLine.socketOpen = true ∧ sAfterLine.timerArmed = false ∧
      Reachable sAfterLine ∧
      on_timer (timerDeliveryEc TimerFate.expiredThenCancelled) sAfterLine =
        (close sAfterLine, []) ∧
      (close sAfterLine).socketOpen = false :=
  ⟨rfl, rfl, sAfterLine_reachable, rfl, rfl⟩

/-- C6, counterexample: the claim states the server strips an optional
trailing carriage return, so `"hello\r\n"` and `"hello\n"` yield the same
reply; the synchronous server (server_sync.cpp lines 76-83) performs no
stripping and echoes the carriage return back. -/
theorem c6_counterexample :
    syncReplyFor ("hello\r".data ++ ['\n']) ≠ syncReplyFor ("hello".data ++ ['\n']) ∧
      syncReplyFor ("hello\r".data ++ ['\n']) = echoTag ++ "hello\r".data ++ ['\n'] := by
  decide

/-- C6, amended: the asynchronous server strips one optional trailing
carriage return, so for every line `L` (delimiter-free, not itself ending
in `'\r'`) sending `L + "\r\n"` yields the same asynchronous-server reply
as `L + "\n"`; the synchronous server does not strip and echoes the
carriage return. -/
theorem c6_theorem (L : List Char) (h1 : '\n' ∉ L) (h2 : L.getLast? ≠ some '\r') :
    asyncReplyFor (L ++ ['\r', '\n']) = asyncReplyFor (L ++ ['\n']) ∧
      syncReplyFor (L ++ ['\r', '\n']) = echoTag ++ L ++ ['\r'] ++ ['\n'] := by
  have hr : '\n' ∉ L ++ ['\r'] := by
    intro hm
    rcases List.mem_append.1 hm with h | h
    · exact h1 h
    · simp at h
  have e1 : L ++ ['\r', '\n'] = (L ++ ['\r']) ++ ['\n'] := by simp
  have hTW : getlineStr ((L ++ ['\r']) ++ ['\n']) = L ++ ['\r'] := getlineStr_append_nl _ hr
  have hstrip : stripCR (L ++ ['\r']) = L := by
    rw [stripCR, if_pos (by simp)]
    simp
  constructor
  · rw [e1, asyncReplyFor, asyncReplyFor, hTW, getlineStr_append_nl L h1,
      stripCR_eq_self L h2, hstrip]
  · rw [e1, syncReplyFor, hTW]
    simp

/-- The concrete line `"hey"` used by the C6 witness. -/
def heyLine : List Char := "hey".data

/-- C6, witness at the concrete line `"hey"`. -/
theorem c6_witness :
    ('\n' ∉ heyLine) ∧ (heyLine.getLast? ≠ some '\r') ∧
      asyncReplyFor (heyLine ++ ['\r', '\n']) = asyncReplyFor (heyLine ++ ['\n']) ∧
      syncReplyFor (heyLine ++ ['\r', '\n']) = echoTag ++ heyLine ++ ['\r'] ++ ['\n'] :=
  ⟨by decide, by decide, (c6_theorem heyLine (by decide) (by decide)).1,
    (c6_theorem heyLine (by decide) (by decide)).2⟩

/-- C7, counterexample: the claim states accept errors are logged; the
asynchronous accept handler's error path (server_async.cpp lines 151-162)
emits no log entry — it only re-issues the accept. -/
theorem c7_counterexample :
    (accept_handler true 0).2.2 = [] ∧
      (accept_handler true 0).2.1 = [ListenerAct.acceptOp] := by
  decide

/-- C7, amended: after every accept completion, success or failure, exactly
one next accept is issued (as the handler's last action), accept errors are
silently absorbed without logging, and no accept error terminates the
loop — over any schedule of completions every successful accept still
starts a session. -/
theorem c7_theorem :
    (∀ (ec : Bool) (k : Nat),
        (accept_handler ec k).2.1.count ListenerAct.acceptOp = 1 ∧
        (accept_handler ec k).2.1.getLast? = some ListenerAct.acceptOp ∧
        (accept_handler ec k).2.2 =
          (if ec then ([] : List LogEv) else [LogEv.clientConnected])) ∧
      (∀ (ecs : List Bool) (k : Nat), acceptLoop ecs k = k + ecs.count false) := by
  constructor
  · intro ec k
    have hsnd : (accept_handler ec k).2 =
        if ec then ([ListenerAct.acceptOp], ([] : List LogEv))
        else ([ListenerAct.startSession, ListenerAct.acceptOp], [LogEv.clientConnected]) := by
      cases ec <;> rfl
    rw [hsnd]
    cases ec <;> exact ⟨by decide, by decide, by decide⟩
  · intro ecs
    induction ecs with
    | nil => intro k; simp [acceptLoop]
    | cons ec rest ih =>
      intro k
      cases ec <;> simp [acceptLoop, accept_handler, List.count_cons, ih] <;> omega

/-- C8: in every reachable live session state, the inactivity timer is
armed whenever a read operation is outstanding, and no timer is armed while
a write is outstanding (the `Writing` state). -/
theorem c8_theorem (s : SessionSt) (h : Reachable s) (hopen : s.socketOpen = true) :
    (s.readPending = true → s.timerArmed = true) ∧
      (s.writePending = true → s.timerArmed = false) :=
  ⟨fun hrp => (reachable_inv h).2.1 hopen hrp, (reachable_inv h).2.2⟩

/-- C8, witness: the freshly started session (read outstanding) has its
timer armed. -/
theorem c8_witness :
    ((start sInit).1.socketOpen = true) ∧
      (((start sInit).1.readPending = true → (start sInit).1.timerArmed = true) ∧
        ((start sInit).1.writePending = true → (start sInit).1.timerArmed = false)) :=
  ⟨rfl, c8_theorem (start sInit).1 Reachable.start0 rfl⟩

/-- Exit-code map of both client programs, as the code computes it: the
synchronous client returns 1 from the catch-all handler, 2 on missing
stdin, 3 on send failure, 4 on receive failure and 0 on success; the
asynchronous client returns 2 on missing stdin, 1 from the catch-all
handler, and 0 in every other case — including every failing
resolve/connect/send/receive scenario, whose handlers only print. -/
theorem client_exit_codes :
    (∀ (stdin : Option (List Char)) (w r : Bool),
        client_sync_exit ⟨true, stdin, w, r⟩ = 1) ∧
      (∀ w r : Bool, client_sync_exit ⟨false, none, w, r⟩ = 2) ∧
      (∀ (l : List Char) (r : Bool), client_sync_exit ⟨false, some l, true, r⟩ = 3) ∧
      (∀ l : List Char, client_sync_exit ⟨false, some l, false, true⟩ = 4) ∧
      (∀ l : List Char, client_sync_exit ⟨false, some l, false, false⟩ = 0) ∧
      (∀ (rt re ce we rde : Bool), client_async_exit ⟨none, rt, re, ce, we, rde⟩ = 2) ∧
      (∀ (l : List Char) (re ce we rde : Bool),
        client_async_exit ⟨some l, true, re, ce, we, rde⟩ = 1) ∧
      (∀ (l : List Char) (re ce we rde : Bool),
        client_async_exit ⟨some l, false, re, ce, we, rde⟩ = 0) :=
  ⟨fun _ _ _ => rfl, fun _ _ => rfl, fun _ _ => rfl, fun _ => rfl, fun _ => rfl,
    fun _ _ _ _ _ => rfl, fun _ _ _ _ _ => rfl, fun _ _ _ _ _ => rfl⟩

/-- C9, code bug at the failing connect: the claim (and the design
document, for which a cannot-connect startup failure is fatal and exits
non-zero) assigns exit code 1 to an unexpected/fatal error; but the
asynchronous client's connect-failure handler (client_async.cpp lines
52-56) only prints and returns, `io.run()` finishes, and `main` returns 0
(line 153) — the evaluation below runs the code at the failing input:
stdin line `"hi"`, connect error set, no exception. -/
theorem c9_theorem :
    client_async_exit
        { stdinLine := some ['h', 'i'], runThrows := false, resolveEc := false,
          connectEc := true, writeEc := false, readEc := false } = 0 ∧
      client_async_exit
        { stdinLine := some ['h', 'i'], runThrows := false, resolveEc := false,
          connectEc := true, writeEc := false, readEc := false } ≠ 1 := by
  decide

/-- C10: for an empty stdin line the asynchronous client submits a
zero-byte outbound message while the synchronous client sends exactly the
one delimiter byte, so the two clients send different byte sequences; the
asynchronous client appends the delimiter exactly to non-empty lines. -/
theorem c10_theorem :
    clientAsyncOut [] = [] ∧ clientSyncOut [] = ['\n'] ∧
      clientAsyncOut [] ≠ clientSyncOut [] ∧
      (∀ l : List Char, l ≠ [] → '\n' ∉ l → clientAsyncOut l = l ++ ['\n']) := by
  refine ⟨by decide, by decide, by decide, ?_⟩
  intro l h1 h2
  have hl : l.getLast? ≠ some '\n' := fun he =>
    h2 (List.mem_of_mem_getLast? (by simp [he]))
  rw [clientAsyncOut, if_pos ⟨h1, hl⟩]

/-- C10, witness at the concrete non-empty line `"hi"` (and the empty
line, which needs no hypothesis). -/
theorem c10_witness :
    ("hi".data ≠ []) ∧ ('\n' ∉ "hi".data) ∧
      clientAsyncOut "hi".data = "hi".data ++ ['\n'] :=
  ⟨by decide, by decide, c10_theorem.2.2.2 "hi".data (by decide) (by decide)⟩

end EchoSvc
